import Mathlib

/-!
Verification of the Sessylph icon-generation script
(`scripts/generate_icon.py`).

The script is embedded shallowly: geometry is done over `ℚ`
(the Python floats are decimal literals combined by field
operations), an `NSBezierPath` is a list of path segments, and the
AppKit drawing / file-system calls are recorded as explicit effect
traces returned by the embedded functions.
-/

namespace Sessylph

/-- A 2-D point (`NSPoint`). -/
structure Pt where
  x : ℚ
  y : ℚ
  deriving DecidableEq

/-- One `NSBezierPath` element, as produced by `moveToPoint_`,
`lineToPoint_`, `curveToPoint_controlPoint1_controlPoint2_` (argument
order: destination point, control point 1, control point 2) and
`closePath`. -/
inductive Seg where
  | moveTo (p : Pt)
  | lineTo (p : Pt)
  | curveTo (p c1 c2 : Pt)
  | close
  deriving DecidableEq

/-- The corner-radius computation of `create_squircle_path`
(`generate_icon.py` lines 30, 44-47). -/
def limited_radius (width height : ℚ) : ℚ :=
  let LIMIT_FACTOR : ℚ := 1.52866483
  let corner_radius := min width height * 0.22
  let max_radius := min width height / 2
  min corner_radius (max_radius / LIMIT_FACTOR)

/-- `create_squircle_path(x, y, width, height)` (`generate_icon.py`
lines 23-128): the continuous-curvature rounded rectangle, returned as
the ordered list of path segments that the Python code appends to the
`NSBezierPath`. -/
def create_squircle_path (x y width height : ℚ) : List Seg :=
  let TOP_RIGHT_P1 : ℚ := 1.52866483
  let TOP_RIGHT_P2 : ℚ := 1.08849323
  let TOP_RIGHT_P3 : ℚ := 0.86840689
  let TOP_RIGHT_P4 : ℚ := 0.66993427
  let TOP_RIGHT_P5 : ℚ := 0.63149399
  let TOP_RIGHT_P6 : ℚ := 0.37282392
  let TOP_RIGHT_P7 : ℚ := 0.16906013
  let TOP_RIGHT_CP1 : ℚ := 0.06549600
  let TOP_RIGHT_CP2 : ℚ := 0.07491100
  let TOP_RIGHT_CP3 : ℚ := 0.16905899
  let TOP_RIGHT_CP4 : ℚ := 0.37282401
  let r := limited_radius width height
  let left := x
  let right := x + width
  let top := y + height
  let bottom := y
  [ .moveTo ⟨left + r * TOP_RIGHT_P1, top⟩,
    .lineTo ⟨right - r * TOP_RIGHT_P1, top⟩,
    .curveTo ⟨right - r * TOP_RIGHT_P4, top - r * TOP_RIGHT_CP1⟩
      ⟨right - r * TOP_RIGHT_P2, top⟩
      ⟨right - r * TOP_RIGHT_P3, top⟩,
    .curveTo ⟨right - r * TOP_RIGHT_CP2, top - r * TOP_RIGHT_P5⟩
      ⟨right - r * TOP_RIGHT_P6, top - r * TOP_RIGHT_CP3⟩
      ⟨right - r * TOP_RIGHT_P7, top - r * TOP_RIGHT_CP4⟩,
    .curveTo ⟨right, top - r * TOP_RIGHT_P1⟩
      ⟨right, top - r * TOP_RIGHT_P3⟩
      ⟨right, top - r * TOP_RIGHT_P2⟩,
    .lineTo ⟨right, bottom + r * TOP_RIGHT_P1⟩,
    .curveTo ⟨right - r * TOP_RIGHT_CP1, bottom + r * TOP_RIGHT_P4⟩
      ⟨right, bottom + r * TOP_RIGHT_P2⟩
      ⟨right, bottom + r * TOP_RIGHT_P3⟩,
    .curveTo ⟨right - r * TOP_RIGHT_P5, bottom + r * TOP_RIGHT_CP2⟩
      ⟨right - r * TOP_RIGHT_CP3, bottom + r * TOP_RIGHT_P6⟩
      ⟨right - r * TOP_RIGHT_CP4, bottom + r * TOP_RIGHT_P7⟩,
    .curveTo ⟨right - r * TOP_RIGHT_P1, bottom⟩
      ⟨right - r * TOP_RIGHT_P3, bottom⟩
      ⟨right - r * TOP_RIGHT_P2, bottom⟩,
    .lineTo ⟨left + r * TOP_RIGHT_P1, bottom⟩,
    .curveTo ⟨left + r * TOP_RIGHT_P4, bottom + r * TOP_RIGHT_CP1⟩
      ⟨left + r * TOP_RIGHT_P2, bottom⟩
      ⟨left + r * TOP_RIGHT_P3, bottom⟩,
    .curveTo ⟨left + r * TOP_RIGHT_CP2, bottom + r * TOP_RIGHT_P5⟩
      ⟨left + r * TOP_RIGHT_P6, bottom + r * TOP_RIGHT_CP3⟩
      ⟨left + r * TOP_RIGHT_P7, bottom + r * TOP_RIGHT_CP4⟩,
    .curveTo ⟨left, bottom + r * TOP_RIGHT_P1⟩
      ⟨left, bottom + r * TOP_RIGHT_P3⟩
      ⟨left, bottom + r * TOP_RIGHT_P2⟩,
    .lineTo ⟨left, top - r * TOP_RIGHT_P1⟩,
    .curveTo ⟨left + r * TOP_RIGHT_CP1, top - r * TOP_RIGHT_P4⟩
      ⟨left, top - r * TOP_RIGHT_P2⟩
      ⟨left, top - r * TOP_RIGHT_P3⟩,
    .curveTo ⟨left + r * TOP_RIGHT_P5, top - r * TOP_RIGHT_CP2⟩
      ⟨left + r * TOP_RIGHT_CP3, top - r * TOP_RIGHT_P6⟩
      ⟨left + r * TOP_RIGHT_CP4, top - r * TOP_RIGHT_P7⟩,
    .curveTo ⟨left + r * TOP_RIGHT_P1, top⟩
      ⟨left + r * TOP_RIGHT_P3, top⟩
      ⟨left + r * TOP_RIGHT_P2, top⟩,
    .close ]

/-- For nonnegative inputs the clamp in `limited_radius` always takes
the first branch: the radius is `0.22 × min(width, height)`. -/
theorem limited_radius_eq (width height : ℚ) (h : 0 ≤ min width height) :
    limited_radius width height = min width height * 0.22 := by
  unfold limited_radius
  refine min_eq_left ?_
  have he : min width height / 2 / 1.52866483
      = min width height * (50000000 / 152866483) := by ring
  rw [he]
  nlinarith

theorem limited_radius_sq (S : ℚ) (h : 0 ≤ S) :
    limited_radius S S = S * 0.22 := by
  rw [limited_radius_eq S S (by simp [h]), min_self]

/-- C1: for width, height > 0 the corner radius used by
`create_squircle_path` is `min(0.22 × min(width,height),
(min(width,height)/2) / 1.52866483)`; in the square case
`width = height = S` this is `min(0.22×S, S/(2×1.52866483))`; and the
path's first segment is the `moveTo` at distance `r × 1.52866483` from
the left edge along the top edge, where `r` is that radius. -/
theorem C1_corner_radius (width height : ℚ) (hw : 0 < width) (hh : 0 < height) :
    limited_radius width height
      = min (0.22 * min width height) (min width height / 2 / 1.52866483)
    ∧ (width = height →
        limited_radius width height = min (0.22 * width) (width / (2 * 1.52866483)))
    ∧ (create_squircle_path 0 0 width height).head?
      = some (.moveTo ⟨limited_radius width height * 1.52866483, height⟩) := by
  refine ⟨?_, ?_, ?_⟩
  · unfold limited_radius
    rw [mul_comm]
  · rintro rfl
    unfold limited_radius
    rw [min_self]
    congr 1 <;> ring
  · simp [create_squircle_path]

theorem C1_corner_radius_witness :
    limited_radius 10 20
      = min (0.22 * min 10 20) (min 10 20 / 2 / 1.52866483)
    ∧ ((10 : ℚ) = 20 →
        limited_radius 10 20 = min (0.22 * 10) (10 / (2 * 1.52866483)))
    ∧ (create_squircle_path 0 0 10 20).head?
      = some (.moveTo ⟨limited_radius 10 20 * 1.52866483, 20⟩) :=
  C1_corner_radius 10 20 (by norm_num) (by norm_num)

/-- C2 as stated is false: the clamped branch of the radius
computation is never taken for a positive square side, because
`0.22 < 1/(2 × 1.52866483)`.  There is no `S > 0` with
`limited_radius S S = S / (2 × 1.52866483)`. -/
theorem C2_clamped_branch_unreachable :
    ¬ ∃ S : ℚ, 0 < S ∧ limited_radius S S = S / (2 * 1.52866483) := by
  rintro ⟨S, hS, heq⟩
  rw [limited_radius_sq S hS.le] at heq
  have he : S / (2 * 1.52866483) = S * (50000000 / 152866483) := by ring
  rw [he] at heq
  nlinarith

/-- C2 amended: for every `S > 0` the unclamped branch is taken —
`limited_radius S S = 0.22 × S`, which is strictly below the would-be
cap `S/(2 × 1.52866483)`; the clamped branch is unreachable and there
is no crossover. -/
theorem C2_unclamped_always (S : ℚ) (hS : 0 < S) :
    limited_radius S S = 0.22 * S ∧ 0.22 * S < S / (2 * 1.52866483) := by
  refine ⟨by rw [limited_radius_sq S hS.le, mul_comm], ?_⟩
  have he : S / (2 * 1.52866483) = S * (50000000 / 152866483) := by ring
  rw [he]
  nlinarith

theorem C2_unclamped_always_witness :
    limited_radius 100 100 = 0.22 * 100
    ∧ (0.22 : ℚ) * 100 < 100 / (2 * 1.52866483) :=
  C2_unclamped_always 100 (by norm_num)

/-! ## Path semantics

An `NSBezierPath` is interpreted point-wise: `visited` is the set of
plane points lying on the drawn contour (line segments and cubic
Bezier curves threaded through the current pen position, with
`closePath` drawing back to the start of the subpath). -/

/-- Linear interpolation from `a` to `b`. -/
def lerpPt (a b : Pt) (t : ℚ) : Pt :=
  ⟨a.x + t * (b.x - a.x), a.y + t * (b.y - a.y)⟩

/-- One coordinate of a cubic Bezier with controls `p0 p1 p2 p3`. -/
def bez (p0 p1 p2 p3 t : ℚ) : ℚ :=
  (1 - t) ^ 3 * p0 + 3 * (1 - t) ^ 2 * t * p1 + 3 * (1 - t) * t ^ 2 * p2 + t ^ 3 * p3

/-- Cubic Bezier curve point at parameter `t`. -/
def bezPt (P0 P1 P2 P3 : Pt) (t : ℚ) : Pt :=
  ⟨bez P0.x P1.x P2.x P3.x t, bez P0.y P1.y P2.y P3.y t⟩

/-- The points of the straight segment from `a` to `b`. -/
def lineSet (a b : Pt) : Set Pt :=
  {q | ∃ t, 0 ≤ t ∧ t ≤ 1 ∧ q = lerpPt a b t}

/-- The points of the cubic Bezier from `a` to `p` with controls
`c1`, `c2`. -/
def curveSet (a c1 c2 p : Pt) : Set Pt :=
  {q | ∃ t, 0 ≤ t ∧ t ≤ 1 ∧ q = bezPt a c1 c2 p t}

/-- Points visited by a segment list starting with pen at `cur` and
current subpath start `start`. -/
def visitedFrom (cur start : Pt) : List Seg → Set Pt
  | [] => ∅
  | .moveTo p :: rest => {p} ∪ visitedFrom p p rest
  | .lineTo p :: rest => lineSet cur p ∪ visitedFrom p start rest
  | .curveTo p c1 c2 :: rest => curveSet cur c1 c2 p ∪ visitedFrom p start rest
  | .close :: rest => lineSet cur start ∪ visitedFrom start start rest

/-- All points visited by a path (our paths begin with a `moveTo`, so
the initial pen position is irrelevant). -/
def visited (segs : List Seg) : Set Pt := visitedFrom ⟨0, 0⟩ ⟨0, 0⟩ segs

/-- Membership in the closed rectangle `[x, x+w] × [y, y+h]`. -/
def inRect (x y w h : ℚ) (p : Pt) : Prop :=
  x ≤ p.x ∧ p.x ≤ x + w ∧ y ≤ p.y ∧ p.y ≤ y + h

/-- The destination point of a drawing segment. -/
def drawnEndpoint : Seg → Option Pt
  | .moveTo p => some p
  | .lineTo p => some p
  | .curveTo p _ _ => some p
  | .close => none

/-- A contour is closed back to its start: it begins with a `moveTo`,
ends with a `closePath`, and the pen is already back at the `moveTo`
point when the `closePath` is issued. -/
def closedBackToStart (segs : List Seg) : Prop :=
  ∃ p₀, segs.head? = some (.moveTo p₀) ∧ segs.getLast? = some .close ∧
    segs.dropLast.getLast?.bind drawnEndpoint = some p₀

@[simp] theorem mem_lineSet {a b q : Pt} :
    q ∈ lineSet a b ↔ ∃ t, 0 ≤ t ∧ t ≤ 1 ∧ q = lerpPt a b t := Iff.rfl

@[simp] theorem mem_curveSet {a c1 c2 p q : Pt} :
    q ∈ curveSet a c1 c2 p ↔ ∃ t, 0 ≤ t ∧ t ≤ 1 ∧ q = bezPt a c1 c2 p t := Iff.rfl

theorem inRect_iff {x y w h : ℚ} {p : Pt} :
    inRect x y w h p ↔ x ≤ p.x ∧ p.x ≤ x + w ∧ y ≤ p.y ∧ p.y ≤ y + h := Iff.rfl

theorem lerpPt_one (a b : Pt) : lerpPt a b 1 = b := by
  cases a; cases b
  simp only [lerpPt, Pt.mk.injEq]
  constructor <;> ring

/-- A cubic Bezier coordinate with controls in `[lo, hi]` stays in
`[lo, hi]` for `t ∈ [0, 1]` (convex-combination bound). -/
theorem bez_bounds {lo hi p0 p1 p2 p3 t : ℚ}
    (h0 : lo ≤ p0) (h0' : p0 ≤ hi) (h1 : lo ≤ p1) (h1' : p1 ≤ hi)
    (h2 : lo ≤ p2) (h2' : p2 ≤ hi) (h3 : lo ≤ p3) (h3' : p3 ≤ hi)
    (ht : 0 ≤ t) (ht' : t ≤ 1) :
    lo ≤ bez p0 p1 p2 p3 t ∧ bez p0 p1 p2 p3 t ≤ hi := by
  have hu : 0 ≤ 1 - t := by linarith
  have w0 : 0 ≤ (1 - t) ^ 3 := pow_nonneg hu 3
  have w1 : 0 ≤ 3 * (1 - t) ^ 2 * t := mul_nonneg (by positivity) ht
  have w2 : 0 ≤ 3 * (1 - t) * t ^ 2 := mul_nonneg (by linarith) (by positivity)
  have w3 : 0 ≤ t ^ 3 := pow_nonneg ht 3
  unfold bez
  constructor
  · nlinarith [mul_nonneg w0 (sub_nonneg.2 h0), mul_nonneg w1 (sub_nonneg.2 h1),
      mul_nonneg w2 (sub_nonneg.2 h2), mul_nonneg w3 (sub_nonneg.2 h3)]
  · nlinarith [mul_nonneg w0 (sub_nonneg.2 h0'), mul_nonneg w1 (sub_nonneg.2 h1'),
      mul_nonneg w2 (sub_nonneg.2 h2'), mul_nonneg w3 (sub_nonneg.2 h3')]

theorem lerp_bounds {lo hi a b t : ℚ}
    (ha : lo ≤ a) (ha' : a ≤ hi) (hb : lo ≤ b) (hb' : b ≤ hi)
    (ht : 0 ≤ t) (ht' : t ≤ 1) :
    lo ≤ a + t * (b - a) ∧ a + t * (b - a) ≤ hi := by
  constructor
  · nlinarith [mul_nonneg (by linarith : (0 : ℚ) ≤ 1 - t) (sub_nonneg.2 ha),
      mul_nonneg ht (sub_nonneg.2 hb)]
  · nlinarith [mul_nonneg (by linarith : (0 : ℚ) ≤ 1 - t) (sub_nonneg.2 ha'),
      mul_nonneg ht (sub_nonneg.2 hb')]

/-- A Bezier arc whose four control points lie in a rectangle stays in
the rectangle. -/
theorem inRect_bezPt {x y w h : ℚ} {P0 P1 P2 P3 : Pt} {t : ℚ}
    (h0 : inRect x y w h P0) (h1 : inRect x y w h P1)
    (h2 : inRect x y w h P2) (h3 : inRect x y w h P3)
    (ht : 0 ≤ t) (ht' : t ≤ 1) : inRect x y w h (bezPt P0 P1 P2 P3 t) := by
  obtain ⟨a0, a0', b0, b0'⟩ := h0
  obtain ⟨a1, a1', b1, b1'⟩ := h1
  obtain ⟨a2, a2', b2, b2'⟩ := h2
  obtain ⟨a3, a3', b3, b3'⟩ := h3
  have hx := bez_bounds a0 a0' a1 a1' a2 a2' a3 a3' ht ht'
  have hy := bez_bounds b0 b0' b1 b1' b2 b2' b3 b3' ht ht'
  exact ⟨hx.1, hx.2, hy.1, hy.2⟩

/-- A straight segment whose endpoints lie in a rectangle stays in the
rectangle. -/
theorem inRect_lerpPt {x y w h : ℚ} {A B : Pt} {t : ℚ}
    (hA : inRect x y w h A) (hB : inRect x y w h B)
    (ht : 0 ≤ t) (ht' : t ≤ 1) : inRect x y w h (lerpPt A B t) := by
  obtain ⟨a, a', b, b'⟩ := hA
  obtain ⟨c, c', d, d'⟩ := hB
  have hx := lerp_bounds a a' c c' ht ht'
  have hy := lerp_bounds b b' d d' ht ht'
  exact ⟨hx.1, hx.2, hy.1, hy.2⟩

/-- A point written as `(x + S·a, y + S·b)` with `0 ≤ a,b ≤ 1` lies in
the square `[x, x+S] × [y, y+S]` when `S > 0`. -/
theorem inRect_coeff {x y S : ℚ} (hS : 0 < S) {a b : ℚ}
    (h : 0 ≤ a ∧ a ≤ 1 ∧ 0 ≤ b ∧ b ≤ 1) :
    inRect x y S S ⟨x + S * a, y + S * b⟩ := by
  obtain ⟨h1, h2, h3, h4⟩ := h
  have p1 := mul_nonneg hS.le h1
  have p2 := mul_nonneg hS.le (sub_nonneg.2 h2)
  have p3 := mul_nonneg hS.le h3
  have p4 := mul_nonneg hS.le (sub_nonneg.2 h4)
  refine ⟨?_, ?_, ?_, ?_⟩
  · show x ≤ x + S * a
    linarith
  · show x + S * a ≤ x + S
    nlinarith
  · show y ≤ y + S * b
    linarith
  · show y + S * b ≤ y + S
    nlinarith

/-- The square-case path with the corner radius resolved to
`S × 0.22` (by `limited_radius_sq`), every point written in the
uniform affine form `(x + S·a, y + S·b)`. -/
theorem create_squircle_path_sq (x y S : ℚ) (hS : 0 ≤ S) :
    create_squircle_path x y S S =
    [ .moveTo ⟨x + S * (0.22 * 1.52866483), y + S * 1⟩,
      .lineTo ⟨x + S * (1 - 0.22 * 1.52866483), y + S * 1⟩,
      .curveTo ⟨x + S * (1 - 0.22 * 0.66993427), y + S * (1 - 0.22 * 0.06549600)⟩
        ⟨x + S * (1 - 0.22 * 1.08849323), y + S * 1⟩
        ⟨x + S * (1 - 0.22 * 0.86840689), y + S * 1⟩,
      .curveTo ⟨x + S * (1 - 0.22 * 0.07491100), y + S * (1 - 0.22 * 0.63149399)⟩
        ⟨x + S * (1 - 0.22 * 0.37282392), y + S * (1 - 0.22 * 0.16905899)⟩
        ⟨x + S * (1 - 0.22 * 0.16906013), y + S * (1 - 0.22 * 0.37282401)⟩,
      .curveTo ⟨x + S * 1, y + S * (1 - 0.22 * 1.52866483)⟩
        ⟨x + S * 1, y + S * (1 - 0.22 * 0.86840689)⟩
        ⟨x + S * 1, y + S * (1 - 0.22 * 1.08849323)⟩,
      .lineTo ⟨x + S * 1, y + S * (0.22 * 1.52866483)⟩,
      .curveTo ⟨x + S * (1 - 0.22 * 0.06549600), y + S * (0.22 * 0.66993427)⟩
        ⟨x + S * 1, y + S * (0.22 * 1.08849323)⟩
        ⟨x + S * 1, y + S * (0.22 * 0.86840689)⟩,
      .curveTo ⟨x + S * (1 - 0.22 * 0.63149399), y + S * (0.22 * 0.07491100)⟩
        ⟨x + S * (1 - 0.22 * 0.16905899), y + S * (0.22 * 0.37282392)⟩
        ⟨x + S * (1 - 0.22 * 0.37282401), y + S * (0.22 * 0.16906013)⟩,
      .curveTo ⟨x + S * (1 - 0.22 * 1.52866483), y + S * 0⟩
        ⟨x + S * (1 - 0.22 * 0.86840689), y + S * 0⟩
        ⟨x + S * (1 - 0.22 * 1.08849323), y + S * 0⟩,
      .lineTo ⟨x + S * (0.22 * 1.52866483), y + S * 0⟩,
      .curveTo ⟨x + S * (0.22 * 0.66993427), y + S * (0.22 * 0.06549600)⟩
        ⟨x + S * (0.22 * 1.08849323), y + S * 0⟩
        ⟨x + S * (0.22 * 0.86840689), y + S * 0⟩,
      .curveTo ⟨x + S * (0.22 * 0.07491100), y + S * (0.22 * 0.63149399)⟩
        ⟨x + S * (0.22 * 0.37282392), y + S * (0.22 * 0.16905899)⟩
        ⟨x + S * (0.22 * 0.16906013), y + S * (0.22 * 0.37282401)⟩,
      .curveTo ⟨x + S * 0, y + S * (0.22 * 1.52866483)⟩
        ⟨x + S * 0, y + S * (0.22 * 0.86840689)⟩
        ⟨x + S * 0, y + S * (0.22 * 1.08849323)⟩,
      .lineTo ⟨x + S * 0, y + S * (1 - 0.22 * 1.52866483)⟩,
      .curveTo ⟨x + S * (0.22 * 0.06549600), y + S * (1 - 0.22 * 0.66993427)⟩
        ⟨x + S * 0, y + S * (1 - 0.22 * 1.08849323)⟩
        ⟨x + S * 0, y + S * (1 - 0.22 * 0.86840689)⟩,
      .curveTo ⟨x + S * (0.22 * 0.63149399), y + S * (1 - 0.22 * 0.07491100)⟩
        ⟨x + S * (0.22 * 0.16905899), y + S * (1 - 0.22 * 0.37282392)⟩
        ⟨x + S * (0.22 * 0.37282401), y + S * (1 - 0.22 * 0.16906013)⟩,
      .curveTo ⟨x + S * (0.22 * 1.52866483), y + S * 1⟩
        ⟨x + S * (0.22 * 0.86840689), y + S * 1⟩
        ⟨x + S * (0.22 * 1.08849323), y + S * 1⟩,
      .close ] := by
  simp only [create_squircle_path, limited_radius_sq S hS, List.cons.injEq,
    Seg.moveTo.injEq, Seg.lineTo.injEq, Seg.curveTo.injEq, Pt.mk.injEq, and_true]
  repeat' apply And.intro
  all_goals first | rfl | ring

set_option maxHeartbeats 3200000 in
/-- C3: for a square box (`width = height = S > 0`) the contour of
`create_squircle_path` is closed back to its starting point, every
point it visits lies in `[x, x+S] × [y, y+S]`, and all four edges of
that rectangle are attained, so the bounding box is exactly the
rectangle. -/
theorem C3_square_bounding_box (x y S : ℚ) (hS : 0 < S) :
    closedBackToStart (create_squircle_path x y S S)
    ∧ (∀ p ∈ visited (create_squircle_path x y S S), inRect x y S S p)
    ∧ (∃ p ∈ visited (create_squircle_path x y S S), p.y = y + S)
    ∧ (∃ p ∈ visited (create_squircle_path x y S S), p.y = y)
    ∧ (∃ p ∈ visited (create_squircle_path x y S S), p.x = x)
    ∧ (∃ p ∈ visited (create_squircle_path x y S S), p.x = x + S) := by
  rw [create_squircle_path_sq x y S hS.le]
  refine ⟨⟨⟨x + S * (0.22 * 1.52866483), y + S * 1⟩, rfl, rfl, rfl⟩, ?_, ?_, ?_, ?_, ?_⟩
  · intro p hp
    simp only [visited, visitedFrom, Set.mem_union,
      Set.mem_singleton_iff, mem_lineSet, mem_curveSet, Set.mem_empty_iff_false,
      or_false, Set.union_empty] at hp
    rcases hp with rfl | ⟨t, ht, ht', rfl⟩ | ⟨t, ht, ht', rfl⟩ | ⟨t, ht, ht', rfl⟩ |
      ⟨t, ht, ht', rfl⟩ | ⟨t, ht, ht', rfl⟩ | ⟨t, ht, ht', rfl⟩ | ⟨t, ht, ht', rfl⟩ |
      ⟨t, ht, ht', rfl⟩ | ⟨t, ht, ht', rfl⟩ | ⟨t, ht, ht', rfl⟩ | ⟨t, ht, ht', rfl⟩ |
      ⟨t, ht, ht', rfl⟩ | ⟨t, ht, ht', rfl⟩ | ⟨t, ht, ht', rfl⟩ | ⟨t, ht, ht', rfl⟩ |
      ⟨t, ht, ht', rfl⟩ | ⟨t, ht, ht', rfl⟩
    · exact inRect_coeff hS (by norm_num)
    · refine inRect_lerpPt ?_ ?_ ht ht' <;> exact inRect_coeff hS (by norm_num)
    · refine inRect_bezPt ?_ ?_ ?_ ?_ ht ht' <;> exact inRect_coeff hS (by norm_num)
    · refine inRect_bezPt ?_ ?_ ?_ ?_ ht ht' <;> exact inRect_coeff hS (by norm_num)
    · refine inRect_bezPt ?_ ?_ ?_ ?_ ht ht' <;> exact inRect_coeff hS (by norm_num)
    · refine inRect_lerpPt ?_ ?_ ht ht' <;> exact inRect_coeff hS (by norm_num)
    · refine inRect_bezPt ?_ ?_ ?_ ?_ ht ht' <;> exact inRect_coeff hS (by norm_num)
    · refine inRect_bezPt ?_ ?_ ?_ ?_ ht ht' <;> exact inRect_coeff hS (by norm_num)
    · refine inRect_bezPt ?_ ?_ ?_ ?_ ht ht' <;> exact inRect_coeff hS (by norm_num)
    · refine inRect_lerpPt ?_ ?_ ht ht' <;> exact inRect_coeff hS (by norm_num)
    · refine inRect_bezPt ?_ ?_ ?_ ?_ ht ht' <;> exact inRect_coeff hS (by norm_num)
    · refine inRect_bezPt ?_ ?_ ?_ ?_ ht ht' <;> exact inRect_coeff hS (by norm_num)
    · refine inRect_bezPt ?_ ?_ ?_ ?_ ht ht' <;> exact inRect_coeff hS (by norm_num)
    · refine inRect_lerpPt ?_ ?_ ht ht' <;> exact inRect_coeff hS (by norm_num)
    · refine inRect_bezPt ?_ ?_ ?_ ?_ ht ht' <;> exact inRect_coeff hS (by norm_num)
    · refine inRect_bezPt ?_ ?_ ?_ ?_ ht ht' <;> exact inRect_coeff hS (by norm_num)
    · refine inRect_bezPt ?_ ?_ ?_ ?_ ht ht' <;> exact inRect_coeff hS (by norm_num)
    · refine inRect_lerpPt ?_ ?_ ht ht' <;> exact inRect_coeff hS (by norm_num)
  · refine ⟨⟨x + S * (0.22 * 1.52866483), y + S * 1⟩, ?_, by
      show y + S * 1 = y + S; ring⟩
    simp only [visited, visitedFrom, Set.mem_union, Set.mem_singleton_iff]
    exact Or.inl trivial
  · refine ⟨⟨x + S * (0.22 * 1.52866483), y + S * 0⟩, ?_, by
      show y + S * 0 = y; ring⟩
    simp only [visited, visitedFrom, Set.mem_union,
      Set.mem_singleton_iff, mem_lineSet, mem_curveSet]
    iterate 9 refine Or.inr ?_
    exact Or.inl ⟨1, by norm_num, le_rfl, (lerpPt_one _ _).symm⟩
  · refine ⟨⟨x + S * 0, y + S * (1 - 0.22 * 1.52866483)⟩, ?_, by
      show x + S * 0 = x; ring⟩
    simp only [visited, visitedFrom, Set.mem_union,
      Set.mem_singleton_iff, mem_lineSet, mem_curveSet]
    iterate 13 refine Or.inr ?_
    exact Or.inl ⟨1, by norm_num, le_rfl, (lerpPt_one _ _).symm⟩
  · refine ⟨⟨x + S * 1, y + S * (0.22 * 1.52866483)⟩, ?_, by
      show x + S * 1 = x + S; ring⟩
    simp only [visited, visitedFrom, Set.mem_union,
      Set.mem_singleton_iff, mem_lineSet, mem_curveSet]
    iterate 5 refine Or.inr ?_
    exact Or.inl ⟨1, by norm_num, le_rfl, (lerpPt_one _ _).symm⟩

theorem C3_square_bounding_box_witness :
    closedBackToStart (create_squircle_path 0 0 100 100)
    ∧ (∀ p ∈ visited (create_squircle_path 0 0 100 100), inRect 0 0 100 100 p)
    ∧ (∃ p ∈ visited (create_squircle_path 0 0 100 100), p.y = 0 + 100)
    ∧ (∃ p ∈ visited (create_squircle_path 0 0 100 100), p.y = 0)
    ∧ (∃ p ∈ visited (create_squircle_path 0 0 100 100), p.x = 0)
    ∧ (∃ p ∈ visited (create_squircle_path 0 0 100 100), p.x = 0 + 100) :=
  C3_square_bounding_box 0 0 100 (by norm_num)

/-! ## Control polygon, convexity and rotational symmetry -/

/-- The control-polygon points contributed by one segment (for a
curve: control point 1, control point 2, then the endpoint). -/
def segPolyPoints : Seg → List Pt
  | .moveTo p => [p]
  | .lineTo p => [p]
  | .curveTo p c1 c2 => [c1, c2, p]
  | .close => []

/-- The full control polygon of a path, in traversal order. -/
def allPoints : List Seg → List Pt
  | [] => []
  | s :: rest => segPolyPoints s ++ allPoints rest

/-- Orientation cross product of the triple `(o, a, b)`:
`(a - o) × (b - o)`. -/
def cross (o a b : Pt) : ℚ :=
  (a.x - o.x) * (b.y - o.y) - (a.y - o.y) * (b.x - o.x)

/-- Every three consecutive points turn clockwise or are collinear. -/
def clockwiseTriples : List Pt → Prop
  | o :: a :: b :: rest => cross o a b ≤ 0 ∧ clockwiseTriples (a :: b :: rest)
  | _ => True

/-- Convexity of a closed polygon, traversed clockwise: all
consecutive triples (cyclically) turn clockwise or are collinear. -/
def convexClockwise (ps : List Pt) : Prop :=
  clockwiseTriples (ps ++ ps.take 2)

/-- Rotation of `p` by 90° clockwise about `c`
(y increases upwards). -/
def rot90cw (c p : Pt) : Pt := ⟨c.x + (p.y - c.y), c.y - (p.x - c.x)⟩

/-- Rotation of `p` by 90° counterclockwise about `c`. -/
def rot90ccw (c p : Pt) : Pt := ⟨c.x - (p.y - c.y), c.y + (p.x - c.x)⟩

theorem cross_mk (ox oy ax ay bx bq : ℚ) :
    cross ⟨ox, oy⟩ ⟨ax, ay⟩ ⟨bx, bq⟩
      = (ax - ox) * (bq - oy) - (ay - oy) * (bx - ox) := rfl

/-- Every squircle path is closed back to its starting point: it ends
with `closePath` and the final curve's endpoint is the `moveTo`
point. -/
theorem closedBackToStart_general (x y w h : ℚ) :
    closedBackToStart (create_squircle_path x y w h) :=
  ⟨⟨x + limited_radius w h * 1.52866483, y + h⟩, rfl, rfl, rfl⟩

set_option maxHeartbeats 3200000 in
/-- The control polygon of every squircle path turns clockwise (or
stays collinear) at every consecutive triple, cyclically: the contour
is convex-cornered.  This holds for any value of the corner radius. -/
theorem convexClockwise_general (x y w h : ℚ) :
    convexClockwise (allPoints (create_squircle_path x y w h)) := by
  unfold convexClockwise
  simp only [create_squircle_path, allPoints, segPolyPoints, List.cons_append,
    List.nil_append, List.take_succ_cons, List.take_zero, List.append_nil,
    clockwiseTriples, cross_mk]
  repeat' apply And.intro
  all_goals first
    | trivial
    | nlinarith [sq_nonneg (limited_radius w h)]

/-- The general-rectangle path with the corner radius resolved to
`min(w,h) × 0.22` (by `limited_radius_eq`), every coordinate written in
one of the uniform forms `x + min w h * g` / `x + w - min w h * g`
(and likewise for `y`/`h`). -/
theorem create_squircle_path_rect (x y w h : ℚ) (hw : 0 < w) (hh : 0 < h) :
    create_squircle_path x y w h =
    [ .moveTo ⟨x + min w h * (0.22 * 1.52866483), y + h - min w h * 0⟩,
      .lineTo ⟨x + w - min w h * (0.22 * 1.52866483), y + h - min w h * 0⟩,
      .curveTo ⟨x + w - min w h * (0.22 * 0.66993427), y + h - min w h * (0.22 * 0.06549600)⟩
        ⟨x + w - min w h * (0.22 * 1.08849323), y + h - min w h * 0⟩
        ⟨x + w - min w h * (0.22 * 0.86840689), y + h - min w h * 0⟩,
      .curveTo ⟨x + w - min w h * (0.22 * 0.07491100), y + h - min w h * (0.22 * 0.63149399)⟩
        ⟨x + w - min w h * (0.22 * 0.37282392), y + h - min w h * (0.22 * 0.16905899)⟩
        ⟨x + w - min w h * (0.22 * 0.16906013), y + h - min w h * (0.22 * 0.37282401)⟩,
      .curveTo ⟨x + w - min w h * 0, y + h - min w h * (0.22 * 1.52866483)⟩
        ⟨x + w - min w h * 0, y + h - min w h * (0.22 * 0.86840689)⟩
        ⟨x + w - min w h * 0, y + h - min w h * (0.22 * 1.08849323)⟩,
      .lineTo ⟨x + w - min w h * 0, y + min w h * (0.22 * 1.52866483)⟩,
      .curveTo ⟨x + w - min w h * (0.22 * 0.06549600), y + min w h * (0.22 * 0.66993427)⟩
        ⟨x + w - min w h * 0, y + min w h * (0.22 * 1.08849323)⟩
        ⟨x + w - min w h * 0, y + min w h * (0.22 * 0.86840689)⟩,
      .curveTo ⟨x + w - min w h * (0.22 * 0.63149399), y + min w h * (0.22 * 0.07491100)⟩
        ⟨x + w - min w h * (0.22 * 0.16905899), y + min w h * (0.22 * 0.37282392)⟩
        ⟨x + w - min w h * (0.22 * 0.37282401), y + min w h * (0.22 * 0.16906013)⟩,
      .curveTo ⟨x + w - min w h * (0.22 * 1.52866483), y + min w h * 0⟩
        ⟨x + w - min w h * (0.22 * 0.86840689), y + min w h * 0⟩
        ⟨x + w - min w h * (0.22 * 1.08849323), y + min w h * 0⟩,
      .lineTo ⟨x + min w h * (0.22 * 1.52866483), y + min w h * 0⟩,
      .curveTo ⟨x + min w h * (0.22 * 0.66993427), y + min w h * (0.22 * 0.06549600)⟩
        ⟨x + min w h * (0.22 * 1.08849323), y + min w h * 0⟩
        ⟨x + min w h * (0.22 * 0.86840689), y + min w h * 0⟩,
      .curveTo ⟨x + min w h * (0.22 * 0.07491100), y + min w h * (0.22 * 0.63149399)⟩
        ⟨x + min w h * (0.22 * 0.37282392), y + min w h * (0.22 * 0.16905899)⟩
        ⟨x + min w h * (0.22 * 0.16906013), y + min w h * (0.22 * 0.37282401)⟩,
      .curveTo ⟨x + min w h * 0, y + min w h * (0.22 * 1.52866483)⟩
        ⟨x + min w h * 0, y + min w h * (0.22 * 0.86840689)⟩
        ⟨x + min w h * 0, y + min w h * (0.22 * 1.08849323)⟩,
      .lineTo ⟨x + min w h * 0, y + h - min w h * (0.22 * 1.52866483)⟩,
      .curveTo ⟨x + min w h * (0.22 * 0.06549600), y + h - min w h * (0.22 * 0.66993427)⟩
        ⟨x + min w h * 0, y + h - min w h * (0.22 * 1.08849323)⟩
        ⟨x + min w h * 0, y + h - min w h * (0.22 * 0.86840689)⟩,
      .curveTo ⟨x + min w h * (0.22 * 0.63149399), y + h - min w h * (0.22 * 0.07491100)⟩
        ⟨x + min w h * (0.22 * 0.16905899), y + h - min w h * (0.22 * 0.37282392)⟩
        ⟨x + min w h * (0.22 * 0.37282401), y + h - min w h * (0.22 * 0.16906013)⟩,
      .curveTo ⟨x + min w h * (0.22 * 1.52866483), y + h - min w h * 0⟩
        ⟨x + min w h * (0.22 * 0.86840689), y + h - min w h * 0⟩
        ⟨x + min w h * (0.22 * 1.08849323), y + h - min w h * 0⟩,
      .close ] := by
  simp only [create_squircle_path, limited_radius_eq w h (le_min hw.le hh.le),
    List.cons.injEq, Seg.moveTo.injEq, Seg.lineTo.injEq, Seg.curveTo.injEq,
    Pt.mk.injEq, and_true]
  repeat' apply And.intro
  all_goals first | rfl | ring

/-- A point `(x + m·gx, y + m·gy)` with `0 ≤ m ≤ w, h` and
`gx, gy ∈ [0, 1]` lies in the rectangle. -/
theorem inRect_mm {x y w h m gx gy : ℚ} (hm0 : 0 ≤ m) (hmw : m ≤ w) (hmh : m ≤ h)
    (hgx : 0 ≤ gx ∧ gx ≤ 1) (hgy : 0 ≤ gy ∧ gy ≤ 1) :
    inRect x y w h ⟨x + m * gx, y + m * gy⟩ := by
  obtain ⟨g1, g2⟩ := hgx
  obtain ⟨g3, g4⟩ := hgy
  have p1 := mul_nonneg hm0 g1
  have p2 := mul_nonneg hm0 (sub_nonneg.2 g2)
  have p3 := mul_nonneg hm0 g3
  have p4 := mul_nonneg hm0 (sub_nonneg.2 g4)
  refine ⟨?_, ?_, ?_, ?_⟩
  · show x ≤ x + m * gx
    linarith
  · show x + m * gx ≤ x + w
    nlinarith
  · show y ≤ y + m * gy
    linarith
  · show y + m * gy ≤ y + h
    nlinarith

theorem inRect_mM {x y w h m gx gy : ℚ} (hm0 : 0 ≤ m) (hmw : m ≤ w) (hmh : m ≤ h)
    (hgx : 0 ≤ gx ∧ gx ≤ 1) (hgy : 0 ≤ gy ∧ gy ≤ 1) :
    inRect x y w h ⟨x + m * gx, y + h - m * gy⟩ := by
  obtain ⟨g1, g2⟩ := hgx
  obtain ⟨g3, g4⟩ := hgy
  have p1 := mul_nonneg hm0 g1
  have p2 := mul_nonneg hm0 (sub_nonneg.2 g2)
  have p3 := mul_nonneg hm0 g3
  have p4 := mul_nonneg hm0 (sub_nonneg.2 g4)
  refine ⟨?_, ?_, ?_, ?_⟩
  · show x ≤ x + m * gx
    linarith
  · show x + m * gx ≤ x + w
    nlinarith
  · show y ≤ y + h - m * gy
    nlinarith
  · show y + h - m * gy ≤ y + h
    linarith

theorem inRect_Mm {x y w h m gx gy : ℚ} (hm0 : 0 ≤ m) (hmw : m ≤ w) (hmh : m ≤ h)
    (hgx : 0 ≤ gx ∧ gx ≤ 1) (hgy : 0 ≤ gy ∧ gy ≤ 1) :
    inRect x y w h ⟨x + w - m * gx, y + m * gy⟩ := by
  obtain ⟨g1, g2⟩ := hgx
  obtain ⟨g3, g4⟩ := hgy
  have p1 := mul_nonneg hm0 g1
  have p2 := mul_nonneg hm0 (sub_nonneg.2 g2)
  have p3 := mul_nonneg hm0 g3
  have p4 := mul_nonneg hm0 (sub_nonneg.2 g4)
  refine ⟨?_, ?_, ?_, ?_⟩
  · show x ≤ x + w - m * gx
    nlinarith
  · show x + w - m * gx ≤ x + w
    linarith
  · show y ≤ y + m * gy
    linarith
  · show y + m * gy ≤ y + h
    nlinarith

theorem inRect_MM {x y w h m gx gy : ℚ} (hm0 : 0 ≤ m) (hmw : m ≤ w) (hmh : m ≤ h)
    (hgx : 0 ≤ gx ∧ gx ≤ 1) (hgy : 0 ≤ gy ∧ gy ≤ 1) :
    inRect x y w h ⟨x + w - m * gx, y + h - m * gy⟩ := by
  obtain ⟨g1, g2⟩ := hgx
  obtain ⟨g3, g4⟩ := hgy
  have p1 := mul_nonneg hm0 g1
  have p2 := mul_nonneg hm0 (sub_nonneg.2 g2)
  have p3 := mul_nonneg hm0 g3
  have p4 := mul_nonneg hm0 (sub_nonneg.2 g4)
  refine ⟨?_, ?_, ?_, ?_⟩
  · show x ≤ x + w - m * gx
    nlinarith
  · show x + w - m * gx ≤ x + w
    linarith
  · show y ≤ y + h - m * gy
    nlinarith
  · show y + h - m * gy ≤ y + h
    linarith

set_option maxHeartbeats 3200000 in
/-- Every point the contour visits lies in `[x, x+w] × [y, y+h]`, for
any rectangle with positive sides. -/
theorem visited_subset_rect (x y w h : ℚ) (hw : 0 < w) (hh : 0 < h) :
    ∀ p ∈ visited (create_squircle_path x y w h), inRect x y w h p := by
  have hm0 : (0 : ℚ) ≤ min w h := le_min hw.le hh.le
  have hmw : min w h ≤ w := min_le_left w h
  have hmh : min w h ≤ h := min_le_right w h
  rw [create_squircle_path_rect x y w h hw hh]
  intro p hp
  simp only [visited, visitedFrom, Set.mem_union,
    Set.mem_singleton_iff, mem_lineSet, mem_curveSet, Set.mem_empty_iff_false,
    or_false, Set.union_empty] at hp
  rcases hp with rfl | ⟨t, ht, ht', rfl⟩ | ⟨t, ht, ht', rfl⟩ | ⟨t, ht, ht', rfl⟩ |
      ⟨t, ht, ht', rfl⟩ | ⟨t, ht, ht', rfl⟩ | ⟨t, ht, ht', rfl⟩ | ⟨t, ht, ht', rfl⟩ |
      ⟨t, ht, ht', rfl⟩ | ⟨t, ht, ht', rfl⟩ | ⟨t, ht, ht', rfl⟩ | ⟨t, ht, ht', rfl⟩ |
      ⟨t, ht, ht', rfl⟩ | ⟨t, ht, ht', rfl⟩ | ⟨t, ht, ht', rfl⟩ | ⟨t, ht, ht', rfl⟩ |
      ⟨t, ht, ht', rfl⟩ | ⟨t, ht, ht', rfl⟩
  · exact inRect_mM hm0 hmw hmh (by norm_num) (by norm_num)
  · refine inRect_lerpPt ?_ ?_ ht ht'
    · exact inRect_mM hm0 hmw hmh (by norm_num) (by norm_num)
    · exact inRect_MM hm0 hmw hmh (by norm_num) (by norm_num)
  · refine inRect_bezPt ?_ ?_ ?_ ?_ ht ht' <;> exact inRect_MM hm0 hmw hmh (by norm_num) (by norm_num)
  · refine inRect_bezPt ?_ ?_ ?_ ?_ ht ht' <;> exact inRect_MM hm0 hmw hmh (by norm_num) (by norm_num)
  · refine inRect_bezPt ?_ ?_ ?_ ?_ ht ht' <;> exact inRect_MM hm0 hmw hmh (by norm_num) (by norm_num)
  · refine inRect_lerpPt ?_ ?_ ht ht'
    · exact inRect_MM hm0 hmw hmh (by norm_num) (by norm_num)
    · exact inRect_Mm hm0 hmw hmh (by norm_num) (by norm_num)
  · refine inRect_bezPt ?_ ?_ ?_ ?_ ht ht' <;> exact inRect_Mm hm0 hmw hmh (by norm_num) (by norm_num)
  · refine inRect_bezPt ?_ ?_ ?_ ?_ ht ht' <;> exact inRect_Mm hm0 hmw hmh (by norm_num) (by norm_num)
  · refine inRect_bezPt ?_ ?_ ?_ ?_ ht ht' <;> exact inRect_Mm hm0 hmw hmh (by norm_num) (by norm_num)
  · refine inRect_lerpPt ?_ ?_ ht ht'
    · exact inRect_Mm hm0 hmw hmh (by norm_num) (by norm_num)
    · exact inRect_mm hm0 hmw hmh (by norm_num) (by norm_num)
  · refine inRect_bezPt ?_ ?_ ?_ ?_ ht ht' <;> exact inRect_mm hm0 hmw hmh (by norm_num) (by norm_num)
  · refine inRect_bezPt ?_ ?_ ?_ ?_ ht ht' <;> exact inRect_mm hm0 hmw hmh (by norm_num) (by norm_num)
  · refine inRect_bezPt ?_ ?_ ?_ ?_ ht ht' <;> exact inRect_mm hm0 hmw hmh (by norm_num) (by norm_num)
  · refine inRect_lerpPt ?_ ?_ ht ht'
    · exact inRect_mm hm0 hmw hmh (by norm_num) (by norm_num)
    · exact inRect_mM hm0 hmw hmh (by norm_num) (by norm_num)
  · refine inRect_bezPt ?_ ?_ ?_ ?_ ht ht' <;> exact inRect_mM hm0 hmw hmh (by norm_num) (by norm_num)
  · refine inRect_bezPt ?_ ?_ ?_ ?_ ht ht' <;> exact inRect_mM hm0 hmw hmh (by norm_num) (by norm_num)
  · refine inRect_bezPt ?_ ?_ ?_ ?_ ht ht' <;> exact inRect_mM hm0 hmw hmh (by norm_num) (by norm_num)
  · refine inRect_lerpPt ?_ ?_ ht ht'
    · exact inRect_mM hm0 hmw hmh (by norm_num) (by norm_num)
    · exact inRect_mM hm0 hmw hmh (by norm_num) (by norm_num)

/-- The contour attains the top edge of its rectangle. -/
theorem visited_top_rect (x y w h : ℚ) (hw : 0 < w) (hh : 0 < h) :
    ∃ p ∈ visited (create_squircle_path x y w h), p.y = y + h := by
  rw [create_squircle_path_rect x y w h hw hh]
  refine ⟨⟨x + min w h * (0.22 * 1.52866483), y + h - min w h * 0⟩, ?_, by
    show y + h - min w h * 0 = y + h; ring⟩
  simp only [visited, visitedFrom, Set.mem_union, Set.mem_singleton_iff]
  exact Or.inl trivial

/-- The contour attains the right edge of its rectangle. -/
theorem visited_right_rect (x y w h : ℚ) (hw : 0 < w) (hh : 0 < h) :
    ∃ p ∈ visited (create_squircle_path x y w h), p.x = x + w := by
  rw [create_squircle_path_rect x y w h hw hh]
  refine ⟨⟨x + w - min w h * 0, y + min w h * (0.22 * 1.52866483)⟩, ?_, by
    show x + w - min w h * 0 = x + w; ring⟩
  simp only [visited, visitedFrom, Set.mem_union,
    Set.mem_singleton_iff, mem_lineSet, mem_curveSet]
  iterate 5 refine Or.inr ?_
  exact Or.inl ⟨1, by norm_num, le_rfl, (lerpPt_one _ _).symm⟩

/-- For every non-square rectangle the drawn contour is not symmetric
under 90° rotation about the rectangle's center, in either
orientation: if it were, its bounding box (which is exactly the
rectangle) would have to be rotation-invariant, forcing
`width = height`. -/
theorem rot_symmetry_nonsq (x y w h : ℚ) (hw : 0 < w) (hh : 0 < h) (hne : w ≠ h) :
    ¬ ((∀ p ∈ visited (create_squircle_path x y w h),
          rot90cw ⟨x + w / 2, y + h / 2⟩ p ∈ visited (create_squircle_path x y w h))
      ∨ (∀ p ∈ visited (create_squircle_path x y w h),
          rot90ccw ⟨x + w / 2, y + h / 2⟩ p ∈ visited (create_squircle_path x y w h))) := by
  have hsub := visited_subset_rect x y w h hw hh
  obtain ⟨pt, hptm, hpty⟩ := visited_top_rect x y w h hw hh
  obtain ⟨pr, hprm, hprx⟩ := visited_right_rect x y w h hw hh
  rintro (hrot | hrot)
  · have h1 := hsub _ (hrot pt hptm)
    have h2 := hsub _ (hrot pr hprm)
    have a2 : x + w / 2 + (pt.y - (y + h / 2)) ≤ x + w := h1.2.1
    have b3 : y ≤ y + h / 2 - (pr.x - (x + w / 2)) := h2.2.2.1
    rw [hpty] at a2
    rw [hprx] at b3
    exact hne (le_antisymm (by linarith) (by linarith))
  · have h1 := hsub _ (hrot pt hptm)
    have h2 := hsub _ (hrot pr hprm)
    have a1 : x ≤ x + w / 2 - (pt.y - (y + h / 2)) := h1.1
    have b4 : y + h / 2 + (pr.x - (x + w / 2)) ≤ y + h := h2.2.2.2
    rw [hpty] at a1
    rw [hprx] at b4
    exact hne (le_antisymm (by linarith) (by linarith))

set_option maxHeartbeats 3200000 in
/-- For a square box the drawn contour is invariant under clockwise
90° rotation about its center: each drawn segment maps onto another
drawn segment of the same path (every corner onto the next corner). -/
theorem visited_sq_rot90cw (x y S : ℚ) (hS : 0 < S) :
    ∀ p ∈ visited (create_squircle_path x y S S),
    rot90cw ⟨x + S / 2, y + S / 2⟩ p ∈ visited (create_squircle_path x y S S) := by
  rw [create_squircle_path_sq x y S hS.le]
  intro p hp
  simp only [visited, visitedFrom, Set.mem_union,
    Set.mem_singleton_iff, mem_lineSet, mem_curveSet, Set.mem_empty_iff_false,
    or_false, Set.union_empty] at hp ⊢
  rcases hp with rfl | ⟨t, ht, ht', rfl⟩ | ⟨t, ht, ht', rfl⟩ | ⟨t, ht, ht', rfl⟩ |
      ⟨t, ht, ht', rfl⟩ | ⟨t, ht, ht', rfl⟩ | ⟨t, ht, ht', rfl⟩ | ⟨t, ht, ht', rfl⟩ |
      ⟨t, ht, ht', rfl⟩ | ⟨t, ht, ht', rfl⟩ | ⟨t, ht, ht', rfl⟩ | ⟨t, ht, ht', rfl⟩ |
      ⟨t, ht, ht', rfl⟩ | ⟨t, ht, ht', rfl⟩ | ⟨t, ht, ht', rfl⟩ | ⟨t, ht, ht', rfl⟩ |
      ⟨t, ht, ht', rfl⟩ | ⟨t, ht, ht', rfl⟩
  · iterate 5 refine Or.inr ?_
    refine Or.inl ⟨0, le_rfl, by norm_num, ?_⟩
    simp only [rot90cw, lerpPt, bezPt, bez, Pt.mk.injEq]
    constructor <;> ring
  · iterate 5 refine Or.inr ?_
    refine Or.inl ⟨t, ht, ht', ?_⟩
    simp only [rot90cw, lerpPt, bezPt, bez, Pt.mk.injEq]
    constructor <;> ring
  · iterate 6 refine Or.inr ?_
    refine Or.inl ⟨t, ht, ht', ?_⟩
    simp only [rot90cw, lerpPt, bezPt, bez, Pt.mk.injEq]
    constructor <;> ring
  · iterate 7 refine Or.inr ?_
    refine Or.inl ⟨t, ht, ht', ?_⟩
    simp only [rot90cw, lerpPt, bezPt, bez, Pt.mk.injEq]
    constructor <;> ring
  · iterate 8 refine Or.inr ?_
    refine Or.inl ⟨t, ht, ht', ?_⟩
    simp only [rot90cw, lerpPt, bezPt, bez, Pt.mk.injEq]
    constructor <;> ring
  · iterate 9 refine Or.inr ?_
    refine Or.inl ⟨t, ht, ht', ?_⟩
    simp only [rot90cw, lerpPt, bezPt, bez, Pt.mk.injEq]
    constructor <;> ring
  · iterate 10 refine Or.inr ?_
    refine Or.inl ⟨t, ht, ht', ?_⟩
    simp only [rot90cw, lerpPt, bezPt, bez, Pt.mk.injEq]
    constructor <;> ring
  · iterate 11 refine Or.inr ?_
    refine Or.inl ⟨t, ht, ht', ?_⟩
    simp only [rot90cw, lerpPt, bezPt, bez, Pt.mk.injEq]
    constructor <;> ring
  · iterate 12 refine Or.inr ?_
    refine Or.inl ⟨t, ht, ht', ?_⟩
    simp only [rot90cw, lerpPt, bezPt, bez, Pt.mk.injEq]
    constructor <;> ring
  · iterate 13 refine Or.inr ?_
    refine Or.inl ⟨t, ht, ht', ?_⟩
    simp only [rot90cw, lerpPt, bezPt, bez, Pt.mk.injEq]
    constructor <;> ring
  · iterate 14 refine Or.inr ?_
    refine Or.inl ⟨t, ht, ht', ?_⟩
    simp only [rot90cw, lerpPt, bezPt, bez, Pt.mk.injEq]
    constructor <;> ring
  · iterate 15 refine Or.inr ?_
    refine Or.inl ⟨t, ht, ht', ?_⟩
    simp only [rot90cw, lerpPt, bezPt, bez, Pt.mk.injEq]
    constructor <;> ring
  · iterate 16 refine Or.inr ?_
    refine Or.inl ⟨t, ht, ht', ?_⟩
    simp only [rot90cw, lerpPt, bezPt, bez, Pt.mk.injEq]
    constructor <;> ring
  · iterate 1 refine Or.inr ?_
    refine Or.inl ⟨t, ht, ht', ?_⟩
    simp only [rot90cw, lerpPt, bezPt, bez, Pt.mk.injEq]
    constructor <;> ring
  · iterate 2 refine Or.inr ?_
    refine Or.inl ⟨t, ht, ht', ?_⟩
    simp only [rot90cw, lerpPt, bezPt, bez, Pt.mk.injEq]
    constructor <;> ring
  · iterate 3 refine Or.inr ?_
    refine Or.inl ⟨t, ht, ht', ?_⟩
    simp only [rot90cw, lerpPt, bezPt, bez, Pt.mk.injEq]
    constructor <;> ring
  · iterate 4 refine Or.inr ?_
    refine Or.inl ⟨t, ht, ht', ?_⟩
    simp only [rot90cw, lerpPt, bezPt, bez, Pt.mk.injEq]
    constructor <;> ring
  · iterate 5 refine Or.inr ?_
    refine Or.inl ⟨0, le_rfl, by norm_num, ?_⟩
    simp only [rot90cw, lerpPt, bezPt, bez, Pt.mk.injEq]
    constructor <;> ring

set_option maxHeartbeats 3200000 in
/-- For a square box the drawn contour is invariant under
counterclockwise 90° rotation about its center. -/
theorem visited_sq_rot90ccw (x y S : ℚ) (hS : 0 < S) :
    ∀ p ∈ visited (create_squircle_path x y S S),
    rot90ccw ⟨x + S / 2, y + S / 2⟩ p ∈ visited (create_squircle_path x y S S) := by
  rw [create_squircle_path_sq x y S hS.le]
  intro p hp
  simp only [visited, visitedFrom, Set.mem_union,
    Set.mem_singleton_iff, mem_lineSet, mem_curveSet, Set.mem_empty_iff_false,
    or_false, Set.union_empty] at hp ⊢
  rcases hp with rfl | ⟨t, ht, ht', rfl⟩ | ⟨t, ht, ht', rfl⟩ | ⟨t, ht, ht', rfl⟩ |
      ⟨t, ht, ht', rfl⟩ | ⟨t, ht, ht', rfl⟩ | ⟨t, ht, ht', rfl⟩ | ⟨t, ht, ht', rfl⟩ |
      ⟨t, ht, ht', rfl⟩ | ⟨t, ht, ht', rfl⟩ | ⟨t, ht, ht', rfl⟩ | ⟨t, ht, ht', rfl⟩ |
      ⟨t, ht, ht', rfl⟩ | ⟨t, ht, ht', rfl⟩ | ⟨t, ht, ht', rfl⟩ | ⟨t, ht, ht', rfl⟩ |
      ⟨t, ht, ht', rfl⟩ | ⟨t, ht, ht', rfl⟩
  · iterate 13 refine Or.inr ?_
    refine Or.inl ⟨0, le_rfl, by norm_num, ?_⟩
    simp only [rot90ccw, lerpPt, bezPt, bez, Pt.mk.injEq]
    constructor <;> ring
  · iterate 13 refine Or.inr ?_
    refine Or.inl ⟨t, ht, ht', ?_⟩
    simp only [rot90ccw, lerpPt, bezPt, bez, Pt.mk.injEq]
    constructor <;> ring
  · iterate 14 refine Or.inr ?_
    refine Or.inl ⟨t, ht, ht', ?_⟩
    simp only [rot90ccw, lerpPt, bezPt, bez, Pt.mk.injEq]
    constructor <;> ring
  · iterate 15 refine Or.inr ?_
    refine Or.inl ⟨t, ht, ht', ?_⟩
    simp only [rot90ccw, lerpPt, bezPt, bez, Pt.mk.injEq]
    constructor <;> ring
  · iterate 16 refine Or.inr ?_
    refine Or.inl ⟨t, ht, ht', ?_⟩
    simp only [rot90ccw, lerpPt, bezPt, bez, Pt.mk.injEq]
    constructor <;> ring
  · iterate 1 refine Or.inr ?_
    refine Or.inl ⟨t, ht, ht', ?_⟩
    simp only [rot90ccw, lerpPt, bezPt, bez, Pt.mk.injEq]
    constructor <;> ring
  · iterate 2 refine Or.inr ?_
    refine Or.inl ⟨t, ht, ht', ?_⟩
    simp only [rot90ccw, lerpPt, bezPt, bez, Pt.mk.injEq]
    constructor <;> ring
  · iterate 3 refine Or.inr ?_
    refine Or.inl ⟨t, ht, ht', ?_⟩
    simp only [rot90ccw, lerpPt, bezPt, bez, Pt.mk.injEq]
    constructor <;> ring
  · iterate 4 refine Or.inr ?_
    refine Or.inl ⟨t, ht, ht', ?_⟩
    simp only [rot90ccw, lerpPt, bezPt, bez, Pt.mk.injEq]
    constructor <;> ring
  · iterate 5 refine Or.inr ?_
    refine Or.inl ⟨t, ht, ht', ?_⟩
    simp only [rot90ccw, lerpPt, bezPt, bez, Pt.mk.injEq]
    constructor <;> ring
  · iterate 6 refine Or.inr ?_
    refine Or.inl ⟨t, ht, ht', ?_⟩
    simp only [rot90ccw, lerpPt, bezPt, bez, Pt.mk.injEq]
    constructor <;> ring
  · iterate 7 refine Or.inr ?_
    refine Or.inl ⟨t, ht, ht', ?_⟩
    simp only [rot90ccw, lerpPt, bezPt, bez, Pt.mk.injEq]
    constructor <;> ring
  · iterate 8 refine Or.inr ?_
    refine Or.inl ⟨t, ht, ht', ?_⟩
    simp only [rot90ccw, lerpPt, bezPt, bez, Pt.mk.injEq]
    constructor <;> ring
  · iterate 9 refine Or.inr ?_
    refine Or.inl ⟨t, ht, ht', ?_⟩
    simp only [rot90ccw, lerpPt, bezPt, bez, Pt.mk.injEq]
    constructor <;> ring
  · iterate 10 refine Or.inr ?_
    refine Or.inl ⟨t, ht, ht', ?_⟩
    simp only [rot90ccw, lerpPt, bezPt, bez, Pt.mk.injEq]
    constructor <;> ring
  · iterate 11 refine Or.inr ?_
    refine Or.inl ⟨t, ht, ht', ?_⟩
    simp only [rot90ccw, lerpPt, bezPt, bez, Pt.mk.injEq]
    constructor <;> ring
  · iterate 12 refine Or.inr ?_
    refine Or.inl ⟨t, ht, ht', ?_⟩
    simp only [rot90ccw, lerpPt, bezPt, bez, Pt.mk.injEq]
    constructor <;> ring
  · iterate 13 refine Or.inr ?_
    refine Or.inl ⟨0, le_rfl, by norm_num, ?_⟩
    simp only [rot90ccw, lerpPt, bezPt, bez, Pt.mk.injEq]
    constructor <;> ring

/-- C4 amended: for every `(x, y, width, height)` with
`width, height > 0` the contour is closed back to its starting point
and convex-cornered (its control polygon turns clockwise, never
counterclockwise, at every consecutive triple, cyclically); and the
drawn contour is symmetric under 90° rotation about the rectangle's
center exactly in the square case: for `width = height` it is
invariant in both orientations, and for `width ≠ height` it is
invariant in neither. -/
theorem C4_closed_convex_rotation (x y w h : ℚ) (hw : 0 < w) (hh : 0 < h) :
    closedBackToStart (create_squircle_path x y w h)
    ∧ convexClockwise (allPoints (create_squircle_path x y w h))
    ∧ (w = h →
        (∀ p ∈ visited (create_squircle_path x y w h),
          rot90cw ⟨x + w / 2, y + h / 2⟩ p ∈ visited (create_squircle_path x y w h))
        ∧ (∀ p ∈ visited (create_squircle_path x y w h),
          rot90ccw ⟨x + w / 2, y + h / 2⟩ p ∈ visited (create_squircle_path x y w h)))
    ∧ (w ≠ h →
        ¬ ((∀ p ∈ visited (create_squircle_path x y w h),
            rot90cw ⟨x + w / 2, y + h / 2⟩ p ∈ visited (create_squircle_path x y w h))
          ∨ (∀ p ∈ visited (create_squircle_path x y w h),
            rot90ccw ⟨x + w / 2, y + h / 2⟩ p ∈ visited (create_squircle_path x y w h)))) := by
  refine ⟨closedBackToStart_general x y w h, convexClockwise_general x y w h, ?_, ?_⟩
  · rintro rfl
    exact ⟨visited_sq_rot90cw x y w hw, visited_sq_rot90ccw x y w hw⟩
  · intro hne
    exact rot_symmetry_nonsq x y w h hw hh hne

theorem C4_closed_convex_rotation_witness :
    closedBackToStart (create_squircle_path 0 0 5 5)
    ∧ convexClockwise (allPoints (create_squircle_path 0 0 5 5))
    ∧ ((5 : ℚ) = 5 →
        (∀ p ∈ visited (create_squircle_path 0 0 5 5),
          rot90cw ⟨0 + 5 / 2, 0 + 5 / 2⟩ p ∈ visited (create_squircle_path 0 0 5 5))
        ∧ (∀ p ∈ visited (create_squircle_path 0 0 5 5),
          rot90ccw ⟨0 + 5 / 2, 0 + 5 / 2⟩ p ∈ visited (create_squircle_path 0 0 5 5)))
    ∧ ((5 : ℚ) ≠ 5 →
        ¬ ((∀ p ∈ visited (create_squircle_path 0 0 5 5),
            rot90cw ⟨0 + 5 / 2, 0 + 5 / 2⟩ p ∈ visited (create_squircle_path 0 0 5 5))
          ∨ (∀ p ∈ visited (create_squircle_path 0 0 5 5),
            rot90ccw ⟨0 + 5 / 2, 0 + 5 / 2⟩ p ∈ visited (create_squircle_path 0 0 5 5)))) :=
  C4_closed_convex_rotation 0 0 5 5 (by decide) (by decide)

/-- C4 as stated is false: on the 2×1 rectangle at the origin the
drawn contour is not symmetric under 90° rotation about the
rectangle's center `(1, 1/2)`, in either orientation. -/
theorem C4_rotation_counterexample :
    ¬ ((∀ p ∈ visited (create_squircle_path 0 0 2 1),
          rot90cw ⟨0 + 2 / 2, 0 + 1 / 2⟩ p ∈ visited (create_squircle_path 0 0 2 1))
      ∨ (∀ p ∈ visited (create_squircle_path 0 0 2 1),
          rot90ccw ⟨0 + 2 / 2, 0 + 1 / 2⟩ p ∈ visited (create_squircle_path 0 0 2 1))) :=
  rot_symmetry_nonsq 0 0 2 1 (by norm_num) (by norm_num) (by norm_num)

/-! ## Drawing and file-system effects

`create_icon`, `save_png` and `main` perform their work through AppKit
calls and file-system writes; the embedding records those effects as
explicit traces. -/

/-- An `NSRect`, as built by `NSMakeRect(x, y, w, h)`. -/
structure NSRect where
  x : ℚ
  y : ℚ
  w : ℚ
  h : ℚ
  deriving DecidableEq

/-- An RGBA color (`colorWithCalibratedRed_green_blue_alpha_`). -/
structure RGBA where
  r : ℚ
  g : ℚ
  b : ℚ
  a : ℚ
  deriving DecidableEq

/-- The AppKit constant `NSCompositingOperationSourceOver`. -/
def NSCompositingOperationSourceOver : ℕ := 2

/-- One drawing call recorded against the current graphics context. -/
inductive DrawCmd where
  | setAntialias (b : Bool)
  | saveState
  | addClip (p : List Seg)
  | drawImage (dest src : NSRect) (op : ℕ) (fraction : ℚ)
  | strokePath (p : List Seg) (lineWidth : ℚ) (color : RGBA)
  | restoreState
  deriving DecidableEq

/-- A decoded source image: its size in points
(`source_image.size()`). -/
structure SrcImage where
  width : ℚ
  height : ℚ
  deriving DecidableEq

/-- The result of `create_icon`: the backing bitmap's pixel
dimensions, the image's nominal size, and the drawing commands
performed into it, in order. -/
structure IconImage where
  pixelsWide : ℕ
  pixelsHigh : ℕ
  sizeW : ℚ
  sizeH : ℚ
  cmds : List DrawCmd
  deriving DecidableEq

/-- `create_icon(source_image, size)` (`generate_icon.py` lines
139-201): allocate a `size × size` RGBA bitmap, clip to the squircle
mask on the centered 0.8125-inset box, draw the source image from a
15%-cropped source rect, then stroke the offset highlight and shadow
squircles under the same mask. -/
def create_icon (source_image : SrcImage) (size : ℕ := 1024) : IconImage :=
  let sizeQ : ℚ := size
  let icon_size := sizeQ * 0.8125
  let margin := (sizeQ - icon_size) / 2
  let squircle_path := create_squircle_path margin margin icon_size icon_size
  let crop_ratio : ℚ := 0.15
  let crop_px := source_image.width * crop_ratio
  let bevel_offset := sizeQ * 0.004
  let stroke_width := sizeQ * 0.008
  let highlight_path :=
    create_squircle_path (margin + bevel_offset) (margin - bevel_offset) icon_size icon_size
  let shadow_path :=
    create_squircle_path (margin - bevel_offset) (margin + bevel_offset) icon_size icon_size
  { pixelsWide := size, pixelsHigh := size, sizeW := sizeQ, sizeH := sizeQ,
    cmds :=
      [ .setAntialias true,
        .saveState,
        .addClip squircle_path,
        .drawImage ⟨margin, margin, icon_size, icon_size⟩
          ⟨crop_px, crop_px, source_image.width - crop_px * 2,
            source_image.height - crop_px * 2⟩
          NSCompositingOperationSourceOver 1,
        .restoreState,
        .saveState,
        .addClip squircle_path,
        .strokePath highlight_path stroke_width ⟨1, 1, 1, 0.5⟩,
        .strokePath shadow_path stroke_width ⟨0, 0, 0, 0.25⟩,
        .restoreState ] }

/-- One PNG export performed by `save_png` (`generate_icon.py` lines
204-228): the written file's path, the bitmap's pixel dimensions, the
interpolation mode set on the context, the destination and source
rects of the resampling draw, and the progress line printed. -/
structure PngWrite where
  path : String
  pixelsWide : ℕ
  pixelsHigh : ℕ
  interpolation : ℕ
  destRect : NSRect
  fromRect : NSRect
  printed : String
  deriving DecidableEq

/-- `path.name`: the final component of a path. -/
def path_name (s : String) : String :=
  ((s.splitOn "/").getLast?).getD s

/-- `save_png(image, path, size, source_size=1024)`. -/
def save_png (image : IconImage) (path : String) (size : ℕ)
    (source_size : ℕ := 1024) : PngWrite :=
  { path := path, pixelsWide := size, pixelsHigh := size,
    interpolation := 3,
    destRect := ⟨0, 0, (size : ℚ), (size : ℚ)⟩,
    fromRect := ⟨0, 0, (source_size : ℚ), (source_size : ℚ)⟩,
    printed := "  Created: " ++ path_name path ++ " (" ++ toString size ++ "x"
      ++ toString size ++ ")" }

/-- `load_source_image(source_path)` (`generate_icon.py` lines
131-136): `decoded` is what the toolkit initializer
`NSImage.initWithContentsOfFile_` returned for the path; the function
raises exactly when that is nothing. -/
def load_source_image (decoded : Option SrcImage) (path : String) :
    Except String SrcImage :=
  match decoded with
  | none => .error ("Could not load image: " ++ path)
  | some image => .ok image

/-! ## JSON (model of the `json` standard library) -/

/-- A JSON value (the subset the script produces: strings, natural
numbers, arrays, objects). -/
inductive Json where
  | jnum (n : ℕ)
  | jstr (s : String)
  | jarr (xs : List Json)
  | jobj (fields : List (String × Json))

def spaces (n : ℕ) : String := String.mk (List.replicate n ' ')

/-! `json.dumps(·, indent=2)`, fuel-bounded model.  Nested values are
indented two further spaces; keys and values are separated by `": "`,
items by a comma and a newline. -/

mutual

def jdump : ℕ → ℕ → Json → String
  | 0, _, _ => ""
  | fuel + 1, ind, j =>
    match j with
    | .jnum n => toString n
    | .jstr s => "\"" ++ s ++ "\""
    | .jarr [] => "[]"
    | .jarr (xh :: xs) =>
        "[\n" ++ jdumpArr fuel (ind + 2) (xh :: xs) ++ "\n" ++ spaces ind ++ "]"
    | .jobj [] => "\x7b\x7d"
    | .jobj (f :: fs) =>
        "\x7b\n" ++ jdumpObj fuel (ind + 2) (f :: fs) ++ "\n" ++ spaces ind ++ "\x7d"

def jdumpArr : ℕ → ℕ → List Json → String
  | 0, _, _ => ""
  | _ + 1, _, [] => ""
  | fuel + 1, ind, [xlast] => spaces ind ++ jdump fuel ind xlast
  | fuel + 1, ind, xh :: xs =>
      spaces ind ++ jdump fuel ind xh ++ ",\n" ++ jdumpArr fuel ind xs

def jdumpObj : ℕ → ℕ → List (String × Json) → String
  | 0, _, _ => ""
  | _ + 1, _, [] => ""
  | fuel + 1, ind, [(k, v)] =>
      spaces ind ++ "\"" ++ k ++ "\": " ++ jdump fuel ind v
  | fuel + 1, ind, (k, v) :: fs =>
      spaces ind ++ "\"" ++ k ++ "\": " ++ jdump fuel ind v ++ ",\n"
        ++ jdumpObj fuel ind fs

end

def skipWs : List Char → List Char
  | [] => []
  | c :: cs => if c = ' ' ∨ c = '\n' ∨ c = '\t' ∨ c = '\r' then skipWs cs else c :: cs

/-- Consume the body of a JSON string up to the closing quote. -/
def parseStrChars : List Char → Option (List Char × List Char)
  | [] => none
  | c :: cs =>
    if c = '"' then some ([], cs)
    else
      match parseStrChars cs with
      | some (s, rest) => some (c :: s, rest)
      | none => none

def takeDigits : List Char → List Char × List Char
  | [] => ([], [])
  | c :: cs =>
    if c.isDigit then
      let (ds, rest) := takeDigits cs
      (c :: ds, rest)
    else ([], c :: cs)

def digitsToNat (ds : List Char) : ℕ :=
  ds.foldl (fun acc c => acc * 10 + (c.toNat - 48)) 0

/-! A recursive-descent JSON reader (fuel-bounded), the model of
`json.loads` on the subset of JSON the script emits. -/

mutual

def parseJson : ℕ → List Char → Option (Json × List Char)
  | 0, _ => none
  | fuel + 1, cs =>
    match skipWs cs with
    | [] => none
    | c :: cs' =>
      if c = '"' then
        match parseStrChars cs' with
        | some (s, rest) => some (.jstr (String.mk s), rest)
        | none => none
      else if c = Char.ofNat 123 then
        match parseObjFields fuel cs' with
        | some (fs, rest) => some (.jobj fs, rest)
        | none => none
      else if c = '[' then
        match parseArrItems fuel cs' with
        | some (xs, rest) => some (.jarr xs, rest)
        | none => none
      else if c.isDigit then
        let (ds, rest) := takeDigits (c :: cs')
        some (.jnum (digitsToNat ds), rest)
      else none

def parseArrItems : ℕ → List Char → Option (List Json × List Char)
  | 0, _ => none
  | fuel + 1, cs =>
    match skipWs cs with
    | ']' :: rest => some ([], rest)
    | cs' => parseArrTail fuel cs'

def parseArrTail : ℕ → List Char → Option (List Json × List Char)
  | 0, _ => none
  | fuel + 1, cs =>
    match parseJson fuel cs with
    | none => none
    | some (j, rest) =>
      match skipWs rest with
      | ',' :: rest' =>
        match parseArrTail fuel rest' with
        | some (js, rest2) => some (j :: js, rest2)
        | none => none
      | ']' :: rest' => some ([j], rest')
      | _ => none

def parseObjFields : ℕ → List Char → Option (List (String × Json) × List Char)
  | 0, _ => none
  | fuel + 1, cs =>
    match skipWs cs with
    | [] => none
    | c :: rest =>
      if c = Char.ofNat 125 then some ([], rest)
      else parseObjTail fuel (c :: rest)

def parseObjTail : ℕ → List Char → Option (List (String × Json) × List Char)
  | 0, _ => none
  | fuel + 1, cs =>
    match skipWs cs with
    | '"' :: cs' =>
      match parseStrChars cs' with
      | none => none
      | some (k, rest) =>
        match skipWs rest with
        | ':' :: rest' =>
          match parseJson fuel rest' with
          | none => none
          | some (v, rest2) =>
            match skipWs rest2 with
            | ',' :: rest3 =>
              match parseObjTail fuel rest3 with
              | some (fs, rest4) => some ((String.mk k, v) :: fs, rest4)
              | none => none
            | c2 :: rest3 =>
              if c2 = Char.ofNat 125 then some ([(String.mk k, v)], rest3)
              else none
            | [] => none
        | _ => none
    | _ => none

end

/-- `json.loads` on a whole document: one value, then only trailing
whitespace. -/
def json_loads (s : String) : Option Json :=
  match parseJson (s.length + 1) s.toList with
  | some (j, rest) => if skipWs rest = [] then some j else none
  | none => none

/-! ## `main` (`generate_icon.py` lines 231-271) -/

/-- The fixed export size list of `main`. -/
def sizes : List ℕ := [16, 32, 64, 128, 256, 512, 1024]

/-- `project_root / "images" / "appiconbase.png"`; the project root
(derived from `__file__` at run time) is a parameter. -/
def source_path (project_root : String) : String :=
  project_root ++ "/images/appiconbase.png"

/-- The fixed output directory of `main`. -/
def output_dir (project_root : String) : String :=
  project_root ++ "/Sources/Sessylph/Resources/Assets.xcassets/AppIcon.appiconset"

/-- The export loop of `main` (lines 253-255): one `save_png` call per
size, with `source_size` left at its default. -/
def export_pngs (icon : IconImage) (dir : String) (szs : List ℕ) : List PngWrite :=
  szs.map fun size => save_png icon (dir ++ ("/appicon_" ++ toString size ++ ".png")) size

/-- The `contents` dictionary of `main` (lines 258-264). -/
def contents (szs : List ℕ) : Json :=
  .jobj
    [ ("images", .jarr (szs.map fun size =>
        .jobj
          [ ("filename", .jstr ("appicon_" ++ toString size ++ ".png")),
            ("idiom", .jstr "mac"),
            ("size", .jstr (toString size ++ "x" ++ toString size)),
            ("scale", .jstr "1x") ])),
      ("info", .jobj [("author", .jstr "xcode"), ("version", .jnum 1)]) ]

/-- How a run of `main` ends: the explicit `return 1`, the implicit
`None` return, or an uncaught toolkit exception. -/
inductive Outcome where
  | errorReturn (code : ℕ)
  | success
  | raised (msg : String)
  deriving DecidableEq

/-- Everything a run of `main` does to the outside world, in one
record: its outcome, the lines printed, the directories created, how
many times the image loader ran, the PNG exports, and the text files
written. -/
structure MainResult where
  outcome : Outcome
  printed : List String
  dirsCreated : List String
  loadCalls : ℕ
  pngWrites : List PngWrite
  textWrites : List (String × String)

/-- `main()`: `source_exists` is the result of the
`source_path.exists()` check, `decoded` what the toolkit image
initializer would return for the file. -/
def main (project_root : String) (source_exists : Bool)
    (decoded : Option SrcImage) : MainResult :=
  if !source_exists then
    { outcome := .errorReturn 1,
      printed := ["Error: Source image not found: " ++ source_path project_root],
      dirsCreated := [], loadCalls := 0, pngWrites := [], textWrites := [] }
  else
    match load_source_image decoded (source_path project_root) with
    | .error msg =>
      { outcome := .raised msg,
        printed := ["Loading source image: " ++ source_path project_root],
        dirsCreated := [output_dir project_root], loadCalls := 1,
        pngWrites := [], textWrites := [] }
    | .ok source_image =>
      let icon := create_icon source_image 1024
      let writes := export_pngs icon (output_dir project_root) sizes
      { outcome := .success,
        printed :=
          ["Loading source image: " ++ source_path project_root,
           "Creating icon with squircle mask...",
           "\nGenerating PNG icons..."]
          ++ writes.map (fun wr => wr.printed)
          ++ ["  Created: Contents.json", "\nAll icons generated successfully!"],
        dirsCreated := [output_dir project_root],
        loadCalls := 1,
        pngWrites := writes,
        textWrites := [(output_dir project_root ++ "/Contents.json",
          jdump 100 0 (contents sizes) ++ "\n")] }

/-- C5: for every canvas size > 0, `create_icon` allocates a
`size × size` bitmap and issues exactly this command sequence: clip to
the squircle mask on the centered inset box of side
`canvasSize × 0.8125` (margin `(canvasSize − iconSize)/2`), draw the
source image from a source rect inset by 15% of the source width on
each edge, then stroke a white/alpha-0.5 highlight squircle and a
black/alpha-0.25 shadow squircle, each offset by `canvasSize × 0.004`
and stroked at width `canvasSize × 0.008`, under the same mask. -/
theorem C5_create_icon_composition (src : SrcImage) (size : ℕ) (hpos : 0 < size) :
    create_icon src size =
      ⟨size, size, (size : ℚ), (size : ℚ),
        [ .setAntialias true,
          .saveState,
          .addClip (create_squircle_path
            (((size : ℚ) - (size : ℚ) * 0.8125) / 2) (((size : ℚ) - (size : ℚ) * 0.8125) / 2)
            ((size : ℚ) * 0.8125) ((size : ℚ) * 0.8125)),
          .drawImage
            ⟨((size : ℚ) - (size : ℚ) * 0.8125) / 2, ((size : ℚ) - (size : ℚ) * 0.8125) / 2,
              (size : ℚ) * 0.8125, (size : ℚ) * 0.8125⟩
            ⟨0.15 * src.width, 0.15 * src.width,
              src.width - 2 * (0.15 * src.width), src.height - 2 * (0.15 * src.width)⟩
            NSCompositingOperationSourceOver 1,
          .restoreState,
          .saveState,
          .addClip (create_squircle_path
            (((size : ℚ) - (size : ℚ) * 0.8125) / 2) (((size : ℚ) - (size : ℚ) * 0.8125) / 2)
            ((size : ℚ) * 0.8125) ((size : ℚ) * 0.8125)),
          .strokePath (create_squircle_path
              (((size : ℚ) - (size : ℚ) * 0.8125) / 2 + (size : ℚ) * 0.004)
              (((size : ℚ) - (size : ℚ) * 0.8125) / 2 - (size : ℚ) * 0.004)
              ((size : ℚ) * 0.8125) ((size : ℚ) * 0.8125))
            ((size : ℚ) * 0.008) ⟨1, 1, 1, 0.5⟩,
          .strokePath (create_squircle_path
              (((size : ℚ) - (size : ℚ) * 0.8125) / 2 - (size : ℚ) * 0.004)
              (((size : ℚ) - (size : ℚ) * 0.8125) / 2 + (size : ℚ) * 0.004)
              ((size : ℚ) * 0.8125) ((size : ℚ) * 0.8125))
            ((size : ℚ) * 0.008) ⟨0, 0, 0, 0.25⟩,
          .restoreState ] ⟩ := by
  simp only [create_icon, IconImage.mk.injEq, List.cons.injEq,
    DrawCmd.setAntialias.injEq, DrawCmd.addClip.injEq, DrawCmd.drawImage.injEq,
    DrawCmd.strokePath.injEq, NSRect.mk.injEq, RGBA.mk.injEq, and_true, true_and]
  repeat' apply And.intro
  all_goals first | rfl | ring

theorem C5_create_icon_composition_witness :
    create_icon ⟨500, 400⟩ 1024 =
      ⟨1024, 1024, ((1024 : ℕ) : ℚ), ((1024 : ℕ) : ℚ),
        [ .setAntialias true,
          .saveState,
          .addClip (create_squircle_path
            ((((1024 : ℕ) : ℚ) - ((1024 : ℕ) : ℚ) * 0.8125) / 2)
            ((((1024 : ℕ) : ℚ) - ((1024 : ℕ) : ℚ) * 0.8125) / 2)
            (((1024 : ℕ) : ℚ) * 0.8125) (((1024 : ℕ) : ℚ) * 0.8125)),
          .drawImage
            ⟨(((1024 : ℕ) : ℚ) - ((1024 : ℕ) : ℚ) * 0.8125) / 2,
              (((1024 : ℕ) : ℚ) - ((1024 : ℕ) : ℚ) * 0.8125) / 2,
              ((1024 : ℕ) : ℚ) * 0.8125, ((1024 : ℕ) : ℚ) * 0.8125⟩
            ⟨0.15 * (SrcImage.mk 500 400).width, 0.15 * (SrcImage.mk 500 400).width,
              (SrcImage.mk 500 400).width - 2 * (0.15 * (SrcImage.mk 500 400).width),
              (SrcImage.mk 500 400).height - 2 * (0.15 * (SrcImage.mk 500 400).width)⟩
            NSCompositingOperationSourceOver 1,
          .restoreState,
          .saveState,
          .addClip (create_squircle_path
            ((((1024 : ℕ) : ℚ) - ((1024 : ℕ) : ℚ) * 0.8125) / 2)
            ((((1024 : ℕ) : ℚ) - ((1024 : ℕ) : ℚ) * 0.8125) / 2)
            (((1024 : ℕ) : ℚ) * 0.8125) (((1024 : ℕ) : ℚ) * 0.8125)),
          .strokePath (create_squircle_path
              ((((1024 : ℕ) : ℚ) - ((1024 : ℕ) : ℚ) * 0.8125) / 2 + ((1024 : ℕ) : ℚ) * 0.004)
              ((((1024 : ℕ) : ℚ) - ((1024 : ℕ) : ℚ) * 0.8125) / 2 - ((1024 : ℕ) : ℚ) * 0.004)
              (((1024 : ℕ) : ℚ) * 0.8125) (((1024 : ℕ) : ℚ) * 0.8125))
            (((1024 : ℕ) : ℚ) * 0.008) ⟨1, 1, 1, 0.5⟩,
          .strokePath (create_squircle_path
              ((((1024 : ℕ) : ℚ) - ((1024 : ℕ) : ℚ) * 0.8125) / 2 - ((1024 : ℕ) : ℚ) * 0.004)
              ((((1024 : ℕ) : ℚ) - ((1024 : ℕ) : ℚ) * 0.8125) / 2 + ((1024 : ℕ) : ℚ) * 0.004)
              (((1024 : ℕ) : ℚ) * 0.8125) (((1024 : ℕ) : ℚ) * 0.8125))
            (((1024 : ℕ) : ℚ) * 0.008) ⟨0, 0, 0, 0.25⟩,
          .restoreState ] ⟩ :=
  C5_create_icon_composition ⟨500, 400⟩ 1024 (by decide)

/-- C6: with the source present and decodable, `main` writes exactly
one PNG per size in `[16, 32, 64, 128, 256, 512, 1024]`, named
`appicon_<size>.png`, each backed by a `size × size` bitmap; and the
export loop run over `[16, 32]` alone produces exactly two files,
16×16 and 32×32. -/
theorem C6_export_files (root : String) (img : SrcImage) :
    sizes = [16, 32, 64, 128, 256, 512, 1024]
    ∧ (main root true (some img)).pngWrites.map
        (fun wr => (wr.path, wr.pixelsWide, wr.pixelsHigh))
      = [ (output_dir root ++ "/appicon_16.png", 16, 16),
          (output_dir root ++ "/appicon_32.png", 32, 32),
          (output_dir root ++ "/appicon_64.png", 64, 64),
          (output_dir root ++ "/appicon_128.png", 128, 128),
          (output_dir root ++ "/appicon_256.png", 256, 256),
          (output_dir root ++ "/appicon_512.png", 512, 512),
          (output_dir root ++ "/appicon_1024.png", 1024, 1024) ]
    ∧ (export_pngs (create_icon img 1024) (output_dir root) [16, 32]).map
        (fun wr => (wr.path, wr.pixelsWide, wr.pixelsHigh))
      = [ (output_dir root ++ "/appicon_16.png", 16, 16),
          (output_dir root ++ "/appicon_32.png", 32, 32) ] :=
  ⟨rfl, rfl, rfl⟩

set_option maxRecDepth 10000 in
/-- C7: `main` writes `Contents.json` exactly once; reading the text
it writes back with the JSON reader yields exactly the `contents`
object: an `images` array with one entry per export size, the i-th
entry being `{filename: "appicon_<N>.png", idiom: "mac",
size: "<N>x<N>", scale: "1x"}`, and an `info` object
`{author: "xcode", version: 1}`. -/
theorem C7_manifest_roundtrip (root : String) (img : SrcImage) :
    (main root true (some img)).textWrites
      = [(output_dir root ++ "/Contents.json", jdump 100 0 (contents sizes) ++ "\n")]
    ∧ json_loads (jdump 100 0 (contents sizes) ++ "\n") = some (contents sizes)
    ∧ contents sizes =
      .jobj
        [ ("images", .jarr
            [ .jobj [("filename", .jstr "appicon_16.png"), ("idiom", .jstr "mac"),
                ("size", .jstr "16x16"), ("scale", .jstr "1x")],
              .jobj [("filename", .jstr "appicon_32.png"), ("idiom", .jstr "mac"),
                ("size", .jstr "32x32"), ("scale", .jstr "1x")],
              .jobj [("filename", .jstr "appicon_64.png"), ("idiom", .jstr "mac"),
                ("size", .jstr "64x64"), ("scale", .jstr "1x")],
              .jobj [("filename", .jstr "appicon_128.png"), ("idiom", .jstr "mac"),
                ("size", .jstr "128x128"), ("scale", .jstr "1x")],
              .jobj [("filename", .jstr "appicon_256.png"), ("idiom", .jstr "mac"),
                ("size", .jstr "256x256"), ("scale", .jstr "1x")],
              .jobj [("filename", .jstr "appicon_512.png"), ("idiom", .jstr "mac"),
                ("size", .jstr "512x512"), ("scale", .jstr "1x")],
              .jobj [("filename", .jstr "appicon_1024.png"), ("idiom", .jstr "mac"),
                ("size", .jstr "1024x1024"), ("scale", .jstr "1x")] ]),
          ("info", .jobj [("author", .jstr "xcode"), ("version", .jnum 1)]) ]
    ∧ sizes.length = 7 :=
  ⟨rfl, rfl, rfl, rfl⟩

/-- C8: when the source image does not exist, `main` prints the error
line and returns 1, having created no directory, loaded nothing, and
written no file at all. -/
theorem C8_missing_source (root : String) (decoded : Option SrcImage) :
    main root false decoded =
      { outcome := .errorReturn 1,
        printed := ["Error: Source image not found: " ++ source_path root],
        dirsCreated := [], loadCalls := 0, pngWrites := [], textWrites := [] } := rfl

/-- C9: `load_source_image` fails exactly when the toolkit image
initializer returns nothing for the path, and otherwise returns the
decoded image unchanged. -/
theorem C9_load_source_image_error (decoded : Option SrcImage) (path : String) :
    ((∃ e, load_source_image decoded path = .error e) ↔ decoded = none)
    ∧ (∀ img, load_source_image (some img) path = .ok img) := by
  constructor
  · constructor
    · rintro ⟨e, he⟩
      cases decoded with
      | none => rfl
      | some img => simp [load_source_image] at he
    · rintro rfl
      exact ⟨_, rfl⟩
  · intro img
    rfl

/-- C10: `save_png`'s `source_size` parameter defaults to 1024 —
calling it without the argument equals calling it with 1024 — so the
resampling draw always reads from the fixed source rect
`(0, 0, 1024, 1024)`; and every export `main` performs does leave the
default in place, so all its PNG writes sample that same rect,
whatever the input image's actual size. -/
theorem C10_save_png_default_source_rect (image : IconImage) (path : String) (size : ℕ) :
    save_png image path size = save_png image path size 1024
    ∧ (save_png image path size).fromRect = ⟨0, 0, 1024, 1024⟩
    ∧ ∀ (root : String) (img : SrcImage),
        (main root true (some img)).pngWrites.map (fun wr => wr.fromRect)
          = sizes.map fun _ => ⟨0, 0, 1024, 1024⟩ := by
  refine ⟨rfl, rfl, fun root img => rfl⟩

end Sessylph
